import Mathlib

/-!
Shallow embedding of the request/response pipeline of the API-testing client,
in its two presentation shells: the browser form (src/src/App.tsx) and the
mobile screen (src/unnamed/part_000). The runtime collaborators the code only
forwards to (the JavaScript runtime's JSON.parse / JSON.stringify, the fetch
transport, the key-value storage) are modelled as explicit parameters of the
embedded functions.
-/

/-- HTTP method: the union type GET | POST | PUT used by both shells. -/
inductive Method where
  | GET
  | POST
  | PUT
deriving DecidableEq, Repr

/-- The JavaScript runtime's JSON collaborator, abstract over the type J of
decoded JSON values: parse models JSON.parse (none = the parse throws) and
stringify2 models JSON.stringify(v, null, 2). -/
structure JsonLib (J : Type) where
  parse : String → Option J
  stringify2 : J → String

/-- One submission's snapshot of the form state read by handleSubmit: method,
baseUrl, url (the endpoint path), urlParams (the query string), useAuth,
token and jsonBody. -/
structure RequestConfig where
  method : Method
  baseUrl : String
  url : String
  urlParams : String
  useAuth : Bool
  token : String
  jsonBody : String
deriving DecidableEq, Repr

/-- The composed fetch call: the full URL and the RequestInit options
(method, headers, optional body) that handleSubmit passes to fetch. -/
structure PreparedRequest where
  url : String
  method : Method
  headers : List (String × String)
  body : Option String
deriving DecidableEq, Repr

/-- Outcome of reading a received response's body through the two paths the
transport exposes: json v when res.json() resolves with the value v, and
text t when res.json() rejects and res.text() then yields t. -/
inductive BodyRead (J : Type) where
  | json (v : J)
  | text (t : String)
deriving DecidableEq, Repr

/-- Outcome of one fetch call: failure msg when the promise rejects with an
error whose message is msg, success status body when a response arrives. -/
inductive FetchOutcome (J : Type) where
  | failure (msg : String)
  | success (status : Int) (body : BodyRead J)
deriving DecidableEq, Repr

/-- The external HTTP transport: what fetch does with a prepared request. -/
abbrev Transport (J : Type) : Type := PreparedRequest → FetchOutcome J

/-- The per-submission result state: statusCode (none models the null reset),
response (the rendered body text, empty when none) and error (the
user-visible error message, empty when none). -/
structure ResponseResult where
  statusCode : Option Int
  response : String
  error : String
deriving DecidableEq, Repr

namespace Web

/-- URL construction of App.tsx line 56: baseUrl ++ url followed by
"?" ++ urlParams exactly when urlParams is truthy (non-empty). -/
def buildUrl (baseUrl url urlParams : String) : String :=
  baseUrl ++ url ++ (if urlParams ≠ "" then "?" ++ urlParams else "")

/-- Header preparation of App.tsx lines 59-65: always a JSON content type;
an authorization header exactly when useAuth is set and token is truthy
(non-empty), the falsy empty token skipping the branch silently. -/
def prepareHeaders (useAuth : Bool) (token : String) : List (String × String) :=
  let base := [("Content-Type", "application/json")]
  if useAuth = true ∧ token ≠ "" then
    base ++ [("Authorization", "Bearer " ++ token)]
  else
    base

/-- Request preparation of handleSubmit (App.tsx lines 54-84): everything
before the fetch call. The error value is the early return that surfaces the
message 'Invalid JSON in request body' without calling fetch; on success the
body, when attached, is the raw jsonBody string (JSON.parse is only used to
validate it). -/
def prepare {J : Type} (lib : JsonLib J) (cfg : RequestConfig) :
    Except String PreparedRequest :=
  let fullUrl := buildUrl cfg.baseUrl cfg.url cfg.urlParams
  let headers := prepareHeaders cfg.useAuth cfg.token
  if cfg.method ≠ Method.GET ∧ cfg.jsonBody ≠ "" then
    match lib.parse cfg.jsonBody with
    | some _ =>
      Except.ok { url := fullUrl, method := cfg.method, headers := headers,
                  body := some cfg.jsonBody }
    | none => Except.error "Invalid JSON in request body"
  else
    Except.ok { url := fullUrl, method := cfg.method, headers := headers,
                body := none }

/-- Response interpretation of handleSubmit (App.tsx lines 88-98): the status
code is recorded, then res.json() is tried; on success the decoded value is
re-serialized with 2-space indentation, on failure the raw text is shown,
with the placeholder exactly when that text is falsy (empty). -/
def interpret {J : Type} (lib : JsonLib J) (status : Int) (body : BodyRead J) :
    ResponseResult :=
  match body with
  | BodyRead.json v =>
    { statusCode := some status, response := lib.stringify2 v, error := "" }
  | BodyRead.text t =>
    { statusCode := some status,
      response := if t ≠ "" then t else "No response body", error := "" }

/-- One submission of the browser shell (App.tsx lines 47-104), as a function
of the form snapshot and of the transport. The second component records the
fetch calls the submission made (empty when it aborts before fetch). -/
def handleSubmit {J : Type} (lib : JsonLib J) (transport : Transport J)
    (cfg : RequestConfig) : ResponseResult × List PreparedRequest :=
  match prepare lib cfg with
  | Except.error msg => ({ statusCode := none, response := "", error := msg }, [])
  | Except.ok req =>
    match transport req with
    | FetchOutcome.failure msg =>
      ({ statusCode := none, response := "",
         error := "Request failed: " ++ msg }, [req])
    | FetchOutcome.success status body =>
      (interpret lib status body, [req])

/-- Format JSON action (App.tsx lines 112-119) on the state pair
(jsonBody, error): on parse success jsonBody is replaced by its 2-space
re-serialization and error is untouched; on parse failure only the error
message is set. -/
def formatJsonBody {J : Type} (lib : JsonLib J) (jsonBody error : String) :
    String × String :=
  match lib.parse jsonBody with
  | some v => (lib.stringify2 v, error)
  | none => (jsonBody, "Invalid JSON in request body")

/-- Status color of App.tsx lines 157-163. The JavaScript guard !code is true
exactly for null and for the number 0 (over the integers); any other code
that falls through the three range tests gets the final red return. -/
def getStatusCodeColor (code : Option Int) : String :=
  match code with
  | none => "text-gray-600"
  | some c =>
    if c = 0 then "text-gray-600"
    else if 200 ≤ c ∧ c < 300 then "text-green-600"
    else if 300 ≤ c ∧ c < 400 then "text-blue-600"
    else if 400 ≤ c ∧ c < 500 then "text-yellow-600"
    else "text-red-600"

end Web

namespace Mobile

/-- URL construction of part_000 line 82: same concatenation as the browser
shell. -/
def buildUrl (baseUrl url urlParams : String) : String :=
  baseUrl ++ url ++ (if urlParams ≠ "" then "?" ++ urlParams else "")

/-- Header preparation of part_000 lines 85-91. -/
def prepareHeaders (useAuth : Bool) (token : String) : List (String × String) :=
  let base := [("Content-Type", "application/json")]
  if useAuth = true ∧ token ≠ "" then
    base ++ [("Authorization", "Bearer " ++ token)]
  else
    base

/-- Request preparation of the mobile shell's handleSubmit (part_000 lines
80-110). -/
def prepare {J : Type} (lib : JsonLib J) (cfg : RequestConfig) :
    Except String PreparedRequest :=
  let fullUrl := buildUrl cfg.baseUrl cfg.url cfg.urlParams
  let headers := prepareHeaders cfg.useAuth cfg.token
  if cfg.method ≠ Method.GET ∧ cfg.jsonBody ≠ "" then
    match lib.parse cfg.jsonBody with
    | some _ =>
      Except.ok { url := fullUrl, method := cfg.method, headers := headers,
                  body := some cfg.jsonBody }
    | none => Except.error "Invalid JSON in request body"
  else
    Except.ok { url := fullUrl, method := cfg.method, headers := headers,
                body := none }

/-- Response interpretation of the mobile shell (part_000 lines 113-124). -/
def interpret {J : Type} (lib : JsonLib J) (status : Int) (body : BodyRead J) :
    ResponseResult :=
  match body with
  | BodyRead.json v =>
    { statusCode := some status, response := lib.stringify2 v, error := "" }
  | BodyRead.text t =>
    { statusCode := some status,
      response := if t ≠ "" then t else "No response body", error := "" }

/-- One submission of the mobile shell (part_000 lines 74-130). -/
def handleSubmit {J : Type} (lib : JsonLib J) (transport : Transport J)
    (cfg : RequestConfig) : ResponseResult × List PreparedRequest :=
  match prepare lib cfg with
  | Except.error msg => ({ statusCode := none, response := "", error := msg }, [])
  | Except.ok req =>
    match transport req with
    | FetchOutcome.failure msg =>
      ({ statusCode := none, response := "",
         error := "Request failed: " ++ msg }, [req])
    | FetchOutcome.success status body =>
      (interpret lib status body, [req])

/-- Format JSON action of the mobile shell (part_000 lines 138-145). -/
def formatJsonBody {J : Type} (lib : JsonLib J) (jsonBody error : String) :
    String × String :=
  match lib.parse jsonBody with
  | some v => (lib.stringify2 v, error)
  | none => (jsonBody, "Invalid JSON in request body")

/-- Status color of part_000 lines 148-154: the same branch structure as the
browser shell with the mobile hex palette. -/
def getStatusCodeColor (code : Option Int) : String :=
  match code with
  | none => "#6B7280"
  | some c =>
    if c = 0 then "#6B7280"
    else if 200 ≤ c ∧ c < 300 then "#10B981"
    else if 300 ≤ c ∧ c < 400 then "#3B82F6"
    else if 400 ≤ c ∧ c < 500 then "#F59E0B"
    else "#EF4444"

end Mobile

/-- Severity bucket of the status classification. -/
inductive Bucket where
  | neutral
  | success
  | redirect
  | clientError
  | serverError
deriving DecidableEq, Repr

/-- The partition both shells' getStatusCodeColor branch on: the same if-chain
with the bucket in place of the shell's color string. -/
def statusBucket (code : Option Int) : Bucket :=
  match code with
  | none => Bucket.neutral
  | some c =>
    if c = 0 then Bucket.neutral
    else if 200 ≤ c ∧ c < 300 then Bucket.success
    else if 300 ≤ c ∧ c < 400 then Bucket.redirect
    else if 400 ≤ c ∧ c < 500 then Bucket.clientError
    else Bucket.serverError

/-- Fixed display color of each bucket in the browser shell. -/
def bucketColorWeb : Bucket → String
  | Bucket.neutral => "text-gray-600"
  | Bucket.success => "text-green-600"
  | Bucket.redirect => "text-blue-600"
  | Bucket.clientError => "text-yellow-600"
  | Bucket.serverError => "text-red-600"

/-- Fixed display color of each bucket in the mobile shell. -/
def bucketColorMobile : Bucket → String
  | Bucket.neutral => "#6B7280"
  | Bucket.success => "#10B981"
  | Bucket.redirect => "#3B82F6"
  | Bucket.clientError => "#F59E0B"
  | Bucket.serverError => "#EF4444"

/-- Whether some transport call recorded in calls came back as a failure. -/
def transportCallFailed {J : Type} (transport : Transport J)
    (calls : List PreparedRequest) : Bool :=
  calls.any fun req =>
    match transport req with
    | FetchOutcome.failure _ => true
    | FetchOutcome.success _ _ => false

/-- Environment name: the selector's two values. -/
inductive Env where
  | development
  | production
deriving DecidableEq, Repr

/-- The saved-URLs map state: one base URL string per environment. -/
structure SavedUrls where
  development : String
  production : String
deriving DecidableEq, Repr

/-- Computed update of saveBaseUrl: the spread of savedUrls with the active
environment's entry replaced by baseUrl. -/
def SavedUrls.set (m : SavedUrls) (env : Env) (v : String) : SavedUrls :=
  match env with
  | Env.development => { m with development := v }
  | Env.production => { m with production := v }

/-- Key-value storage collaborator state (localStorage / AsyncStorage): a map
from keys to stored strings. -/
def Store : Type := String → Option String

/-- Model of storage.setItem. -/
def setItem (key value : String) (store : Store) : Store :=
  fun k => if k = key then some value else store k

/-- Fixed storage key used by both shells. -/
def storageKey : String := "apiTesterUrls"

/-- Serialization collaborator for the saved-URLs map: encode models
JSON.stringify of the two-field object and decode models JSON.parse of the
stored string (none = the parse throws). -/
structure UrlCodec where
  encode : SavedUrls → String
  decode : String → Option SavedUrls

/-- Save action of both shells (App.tsx lines 38-45, part_000 lines 61-72):
builds the updated map and persists its serialization under storageKey;
returns the new in-memory map and the new store. -/
def saveBaseUrl (codec : UrlCodec) (savedUrls : SavedUrls) (env : Env)
    (baseUrl : String) (store : Store) : SavedUrls × Store :=
  let newSavedUrls := savedUrls.set env baseUrl
  (newSavedUrls, setItem storageKey (codec.encode newSavedUrls) store)

/-- Load-on-mount effect of both shells (App.tsx lines 24-31, part_000 lines
39-54): reads storageKey and parses the stored string; none when nothing is
stored (the shells then keep their initial state). -/
def loadSavedUrls (codec : UrlCodec) (store : Store) : Option SavedUrls :=
  match store storageKey with
  | some savedData => codec.decode savedData
  | none => none

/-- Concrete JSON collaborator used to evaluate the pipeline on closed inputs:
the only text that parses is the two-character object string, and stringify2
returns that same string. -/
def toyJsonLib : JsonLib Unit :=
  { parse := fun s => if s = "\x7b\x7d" then some () else none,
    stringify2 := fun _ => "\x7b\x7d" }

/-- Concrete serialization collaborator used by the closed round-trip
witness. -/
def toyUrlCodec : UrlCodec :=
  { encode := fun m => m.development,
    decode := fun s => some { development := s, production := "" } }

/-- Concrete submission input whose body text is not valid JSON. -/
def cexConfig : RequestConfig :=
  { method := Method.POST, baseUrl := "http://localhost:3000",
    url := "/api/users", urlParams := "", useAuth := false, token := "",
    jsonBody := "\x7binvalid" }

/-- Concrete transport that always returns a 200 response. -/
def okTransport : Transport Unit :=
  fun _ => FetchOutcome.success 200 (BodyRead.text "ok")

/-- C4: for all strings B, P, Q both shells' URL builder yields B ++ P when Q
is empty and B ++ P ++ "?" ++ Q when Q is non-empty; it is plain string
concatenation, with no normalization, encoding or validation. -/
theorem buildUrl_spec (B P Q : String) :
    (Q = "" → Web.buildUrl B P Q = B ++ P ∧ Mobile.buildUrl B P Q = B ++ P) ∧
    (Q ≠ "" → Web.buildUrl B P Q = B ++ P ++ "?" ++ Q ∧
      Mobile.buildUrl B P Q = B ++ P ++ "?" ++ Q) := by
  constructor
  · intro h
    simp [Web.buildUrl, Mobile.buildUrl, h]
  · intro h
    simp [Web.buildUrl, Mobile.buildUrl, h, String.append_assoc]

/-- C8: the two shells implement the same request/response pipeline: on every
form snapshot and every transport outcome they build the same URL, the same
headers, the same prepared request, and produce the same ResponseResult and
the same transport calls; the format action also agrees. -/
theorem shells_equivalent {J : Type} (lib : JsonLib J) (t : Transport J)
    (cfg : RequestConfig) (status : Int) (body : BodyRead J) (jb e : String) :
    Web.buildUrl cfg.baseUrl cfg.url cfg.urlParams =
      Mobile.buildUrl cfg.baseUrl cfg.url cfg.urlParams ∧
    Web.prepareHeaders cfg.useAuth cfg.token =
      Mobile.prepareHeaders cfg.useAuth cfg.token ∧
    Web.prepare lib cfg = Mobile.prepare lib cfg ∧
    Web.interpret lib status body = Mobile.interpret lib status body ∧
    Web.formatJsonBody lib jb e = Mobile.formatJsonBody lib jb e ∧
    Web.handleSubmit lib t cfg = Mobile.handleSubmit lib t cfg :=
  ⟨rfl, rfl, rfl, rfl, rfl, rfl⟩

/-- C1 counterexample: the spec puts every code below 200 in the neutral
bucket, but the code's falsy guard only catches 0 (and the absent case):
status 100 falls through every range test and gets the server-error color in
both shells, a different color than the absent (neutral) case. -/
theorem statusColor_spec_counterexample :
    statusBucket none = Bucket.neutral ∧
    statusBucket (some 100) = Bucket.serverError ∧
    Web.getStatusCodeColor (some 100) = "text-red-600" ∧
    Mobile.getStatusCodeColor (some 100) = "#EF4444" ∧
    Web.getStatusCodeColor (some 100) ≠ Web.getStatusCodeColor none ∧
    Mobile.getStatusCodeColor (some 100) ≠ Mobile.getStatusCodeColor none := by
  decide

/-- C1 (amended): status classification is a total function into exactly one
of the five buckets, realized identically in both shells (each shell's color
is the fixed color of the bucket), with the boundaries the code implements:
absent or 0 is neutral, 200-299 success, 300-399 redirect, 400-499
client-error, and every other code (nonzero codes below 200, negative codes,
and codes at least 500) is server-error. -/
theorem statusColor_partition (c : Option Int) :
    Web.getStatusCodeColor c = bucketColorWeb (statusBucket c) ∧
    Mobile.getStatusCodeColor c = bucketColorMobile (statusBucket c) ∧
    (statusBucket c = Bucket.neutral ↔ c = none ∨ c = some 0) ∧
    (statusBucket c = Bucket.success ↔ ∃ n, c = some n ∧ 200 ≤ n ∧ n < 300) ∧
    (statusBucket c = Bucket.redirect ↔ ∃ n, c = some n ∧ 300 ≤ n ∧ n < 400) ∧
    (statusBucket c = Bucket.clientError ↔ ∃ n, c = some n ∧ 400 ≤ n ∧ n < 500) ∧
    (statusBucket c = Bucket.serverError ↔
      ∃ n, c = some n ∧ n ≠ 0 ∧ (n < 200 ∨ 500 ≤ n)) := by
  cases c with
  | none =>
    simp [Web.getStatusCodeColor, Mobile.getStatusCodeColor, statusBucket,
      bucketColorWeb, bucketColorMobile]
  | some n =>
    simp only [Web.getStatusCodeColor, Mobile.getStatusCodeColor, statusBucket,
      Option.some.injEq]
    split_ifs with h0 h2 h3 h4 <;>
      refine ⟨rfl, rfl, ?_, ?_, ?_, ?_, ?_⟩ <;> simp_all <;> omega

/-- C2: body attachment in request preparation, identically in both shells:
with method GET the prepared request has no body whatever jsonBody holds;
with method POST or PUT and an empty jsonBody no body is attached; and with
method POST or PUT and a non-empty jsonBody that parses as JSON the attached
body is exactly the input string, not a re-serialization. -/
theorem prepare_body_spec {J : Type} (lib : JsonLib J) (cfg : RequestConfig) :
    (cfg.method = Method.GET →
      Web.prepare lib cfg = Except.ok
        { url := Web.buildUrl cfg.baseUrl cfg.url cfg.urlParams,
          method := cfg.method,
          headers := Web.prepareHeaders cfg.useAuth cfg.token,
          body := none } ∧
      Mobile.prepare lib cfg = Except.ok
        { url := Mobile.buildUrl cfg.baseUrl cfg.url cfg.urlParams,
          method := cfg.method,
          headers := Mobile.prepareHeaders cfg.useAuth cfg.token,
          body := none }) ∧
    ((cfg.method = Method.POST ∨ cfg.method = Method.PUT) → cfg.jsonBody = "" →
      Web.prepare lib cfg = Except.ok
        { url := Web.buildUrl cfg.baseUrl cfg.url cfg.urlParams,
          method := cfg.method,
          headers := Web.prepareHeaders cfg.useAuth cfg.token,
          body := none } ∧
      Mobile.prepare lib cfg = Except.ok
        { url := Mobile.buildUrl cfg.baseUrl cfg.url cfg.urlParams,
          method := cfg.method,
          headers := Mobile.prepareHeaders cfg.useAuth cfg.token,
          body := none }) ∧
    ((cfg.method = Method.POST ∨ cfg.method = Method.PUT) → cfg.jsonBody ≠ "" →
      ∀ v, lib.parse cfg.jsonBody = some v →
      Web.prepare lib cfg = Except.ok
        { url := Web.buildUrl cfg.baseUrl cfg.url cfg.urlParams,
          method := cfg.method,
          headers := Web.prepareHeaders cfg.useAuth cfg.token,
          body := some cfg.jsonBody } ∧
      Mobile.prepare lib cfg = Except.ok
        { url := Mobile.buildUrl cfg.baseUrl cfg.url cfg.urlParams,
          method := cfg.method,
          headers := Mobile.prepareHeaders cfg.useAuth cfg.token,
          body := some cfg.jsonBody }) := by
  refine ⟨?_, ?_, ?_⟩
  · intro h
    simp [Web.prepare, Mobile.prepare, h]
  · intro _ hb
    simp [Web.prepare, Mobile.prepare, hb]
  · intro hm hb v hv
    rcases hm with h | h <;>
      simp [Web.prepare, Mobile.prepare, h, hb, hv]

/-- C3: with method POST or PUT and a non-empty jsonBody that does not parse
as JSON, the submission aborts with the InvalidRequestBody message and no
transport call is made: the result is the same for every transport and the
recorded call list is empty, in both shells. -/
theorem invalidBody_aborts {J : Type} (lib : JsonLib J) (t tm : Transport J)
    (cfg : RequestConfig)
    (hm : cfg.method = Method.POST ∨ cfg.method = Method.PUT)
    (hb : cfg.jsonBody ≠ "") (hp : lib.parse cfg.jsonBody = none) :
    Web.handleSubmit lib t cfg =
      ({ statusCode := none, response := "",
         error := "Invalid JSON in request body" }, []) ∧
    Mobile.handleSubmit lib tm cfg =
      ({ statusCode := none, response := "",
         error := "Invalid JSON in request body" }, []) := by
  rcases hm with h | h <;>
    simp [Web.handleSubmit, Mobile.handleSubmit, Web.prepare, Mobile.prepare,
      h, hb, hp]

/-- C3 witness: the invalid-body abort evaluated on a concrete POST
submission with body text that the concrete JSON collaborator rejects. -/
theorem invalidBody_aborts_witness :
    (cexConfig.method = Method.POST ∨ cexConfig.method = Method.PUT) ∧
    cexConfig.jsonBody ≠ "" ∧
    toyJsonLib.parse cexConfig.jsonBody = none ∧
    Web.handleSubmit toyJsonLib okTransport cexConfig =
      ({ statusCode := none, response := "",
         error := "Invalid JSON in request body" }, []) ∧
    Mobile.handleSubmit toyJsonLib okTransport cexConfig =
      ({ statusCode := none, response := "",
         error := "Invalid JSON in request body" }, []) := by
  have h := invalidBody_aborts toyJsonLib okTransport okTransport cexConfig
    (Or.inl rfl) (by decide) (by decide)
  exact ⟨Or.inl rfl, by decide, by decide, h.1, h.2⟩

/-- C5: in both shells the prepared header set always holds the JSON content
type; it holds an authorization header exactly when useAuth is set and token
is non-empty, and then its value is exactly "Bearer " followed by the token;
and with useAuth set but an empty token the header set is just the content
type (a silent no-op, no error value exists in header preparation). -/
theorem prepareHeaders_spec (useAuth : Bool) (token : String) :
    (("Content-Type", "application/json") ∈ Web.prepareHeaders useAuth token ∧
      ("Content-Type", "application/json") ∈ Mobile.prepareHeaders useAuth token) ∧
    (∀ v, (("Authorization", v) ∈ Web.prepareHeaders useAuth token ↔
        useAuth = true ∧ token ≠ "" ∧ v = "Bearer " ++ token) ∧
      (("Authorization", v) ∈ Mobile.prepareHeaders useAuth token ↔
        useAuth = true ∧ token ≠ "" ∧ v = "Bearer " ++ token)) ∧
    (useAuth = true → token = "" →
      Web.prepareHeaders useAuth token = [("Content-Type", "application/json")] ∧
      Mobile.prepareHeaders useAuth token = [("Content-Type", "application/json")]) := by
  by_cases h : useAuth = true ∧ token ≠ ""
  · obtain ⟨h1, h2⟩ := h
    refine ⟨?_, ?_, ?_⟩
    · simp [Web.prepareHeaders, Mobile.prepareHeaders, h1, h2]
    · intro v
      constructor <;> simp [Web.prepareHeaders, Mobile.prepareHeaders, h1, h2]
    · intro _ ht
      exact absurd ht h2
  · refine ⟨?_, ?_, ?_⟩
    · simp [Web.prepareHeaders, Mobile.prepareHeaders, h]
    · intro v
      constructor <;> simp [Web.prepareHeaders, Mobile.prepareHeaders, h] <;>
        tauto
    · intro h1 h2
      simp [Web.prepareHeaders, Mobile.prepareHeaders, h]

/-- C6: for every successfully received response the interpreter of both
shells records the numeric status code whatever the body decode outcome; a
body that decodes as JSON is rendered as its 2-space re-serialization; a
body that does not decode is rendered as its raw text, with the literal
placeholder exactly when that text is empty; and the submission pipeline
returns exactly this interpretation when the transport returns a response. -/
theorem interpret_spec {J : Type} (lib : JsonLib J) (status : Int)
    (body : BodyRead J) :
    ((Web.interpret lib status body).statusCode = some status ∧
      (Mobile.interpret lib status body).statusCode = some status) ∧
    (∀ v, body = BodyRead.json v →
      (Web.interpret lib status body).response = lib.stringify2 v ∧
      (Mobile.interpret lib status body).response = lib.stringify2 v) ∧
    (∀ t, body = BodyRead.text t → t ≠ "" →
      (Web.interpret lib status body).response = t ∧
      (Mobile.interpret lib status body).response = t) ∧
    (body = BodyRead.text "" →
      (Web.interpret lib status body).response = "No response body" ∧
      (Mobile.interpret lib status body).response = "No response body") ∧
    (∀ (cfg : RequestConfig) (req : PreparedRequest) (tr : Transport J),
      Web.prepare lib cfg = Except.ok req →
      tr req = FetchOutcome.success status body →
      Web.handleSubmit lib tr cfg = (Web.interpret lib status body, [req]) ∧
      Mobile.handleSubmit lib tr cfg = (Mobile.interpret lib status body, [req])) := by
  refine ⟨?_, ?_, ?_, ?_, ?_⟩
  · cases body <;> simp [Web.interpret, Mobile.interpret]
  · intro v hv
    subst hv
    simp [Web.interpret, Mobile.interpret]
  · intro t hb hne
    subst hb
    simp [Web.interpret, Mobile.interpret, hne]
  · intro hb
    subst hb
    simp [Web.interpret, Mobile.interpret]
  · intro cfg req tr hp ht
    have hp' : Mobile.prepare lib cfg = Except.ok req := hp
    constructor
    · simp [Web.handleSubmit, hp, ht]
    · simp [Mobile.handleSubmit, hp', ht]

/-- C10: the Format JSON action of both shells is atomic on error: when the
body text does not parse, jsonBody is left unchanged and only the error
message is set; when it parses to v, jsonBody is replaced by the 2-space
re-serialization of v (error untouched), and whenever the collaborator's
round trip holds at v the replacement parses to the same value as the
original text. -/
theorem formatJsonBody_spec {J : Type} (lib : JsonLib J) (jsonBody e : String) :
    (lib.parse jsonBody = none →
      Web.formatJsonBody lib jsonBody e = (jsonBody, "Invalid JSON in request body") ∧
      Mobile.formatJsonBody lib jsonBody e = (jsonBody, "Invalid JSON in request body")) ∧
    (∀ v, lib.parse jsonBody = some v →
      (Web.formatJsonBody lib jsonBody e = (lib.stringify2 v, e) ∧
        Mobile.formatJsonBody lib jsonBody e = (lib.stringify2 v, e)) ∧
      (lib.parse (lib.stringify2 v) = some v →
        lib.parse (Web.formatJsonBody lib jsonBody e).1 = lib.parse jsonBody ∧
        lib.parse (Mobile.formatJsonBody lib jsonBody e).1 = lib.parse jsonBody)) := by
  constructor
  · intro h
    simp [Web.formatJsonBody, Mobile.formatJsonBody, h]
  · intro v hv
    constructor
    · simp [Web.formatJsonBody, Mobile.formatJsonBody, hv]
    · intro hrt
      simp [Web.formatJsonBody, Mobile.formatJsonBody, hv, hrt]

/-- C7 counterexample: the claim says the status code is absent only when the
transport call itself failed, but on a concrete POST submission whose body
fails to parse the status code is absent while no transport call was even
made (the recorded call list is empty), so no call failed. -/
theorem responseResult_statusCode_counterexample :
    (Web.handleSubmit toyJsonLib okTransport cexConfig).1.statusCode = none ∧
    (Web.handleSubmit toyJsonLib okTransport cexConfig).2 = [] ∧
    transportCallFailed okTransport
      (Web.handleSubmit toyJsonLib okTransport cexConfig).2 = false := by
  decide

/-- C7 (amended): per-submission result invariant, in both shells: at most
one of the rendered body and the error message is non-empty; the status code
is absent exactly when no transport call succeeded, that is, when the
submission aborted before any call (empty call list) or when the one call
failed; and on a transport failure the status code is absent and the error
message is "Request failed: " followed by the failure's message. -/
theorem responseResult_invariant {J : Type} (lib : JsonLib J) (t : Transport J)
    (cfg : RequestConfig) :
    (¬((Web.handleSubmit lib t cfg).1.response ≠ "" ∧
        (Web.handleSubmit lib t cfg).1.error ≠ "")) ∧
    ((Web.handleSubmit lib t cfg).1.statusCode = none ↔
      (Web.handleSubmit lib t cfg).2 = [] ∨
        transportCallFailed t (Web.handleSubmit lib t cfg).2 = true) ∧
    (∀ req msg, (Web.handleSubmit lib t cfg).2 = [req] →
      t req = FetchOutcome.failure msg →
      (Web.handleSubmit lib t cfg).1.statusCode = none ∧
      (Web.handleSubmit lib t cfg).1.error = "Request failed: " ++ msg) ∧
    Web.handleSubmit lib t cfg = Mobile.handleSubmit lib t cfg := by
  refine ⟨?_, ?_, ?_, rfl⟩
  · rcases hp : Web.prepare lib cfg with msg | req
    · simp [Web.handleSubmit, hp]
    · rcases ht : t req with msg | ⟨status, body⟩
      · simp [Web.handleSubmit, hp, ht]
      · cases body <;> simp [Web.handleSubmit, Web.interpret, hp, ht]
  · rcases hp : Web.prepare lib cfg with msg | req
    · simp [Web.handleSubmit, hp]
    · rcases ht : t req with msg | ⟨status, body⟩
      · simp [Web.handleSubmit, transportCallFailed, hp, ht]
      · cases body <;>
          simp [Web.handleSubmit, Web.interpret, transportCallFailed, hp, ht]
  · rcases hp : Web.prepare lib cfg with msg | req
    · simp [Web.handleSubmit, hp]
    · rcases ht : t req with msg | ⟨status, body⟩
      · intro req' msg' h1 h2
        simp only [Web.handleSubmit, hp, ht] at h1 ⊢
        have hr : req = req' := by simpa using h1
        subst hr
        rw [ht] at h2
        cases h2
        simp
      · intro req' msg' h1 h2
        simp only [Web.handleSubmit, hp, ht] at h1
        have hr : req = req' := by simpa using h1
        subst hr
        rw [ht] at h2
        cases h2

/-- C9: environment-store round trip for both shells' shared save/load logic:
whenever the serialization collaborator's round trip holds on the saved map,
the save action persists the updated two-environment map under the fixed
storage key and a subsequent load returns exactly that map. -/
theorem envStore_roundtrip (codec : UrlCodec) (store : Store) (m : SavedUrls)
    (env : Env) (baseUrl : String)
    (h : codec.decode (codec.encode (m.set env baseUrl)) =
      some (m.set env baseUrl)) :
    (saveBaseUrl codec m env baseUrl store).1 = m.set env baseUrl ∧
    loadSavedUrls codec (saveBaseUrl codec m env baseUrl store).2 =
      some ((saveBaseUrl codec m env baseUrl store).1) := by
  constructor
  · rfl
  · simp [loadSavedUrls, saveBaseUrl, setItem, h]

/-- C9 witness: the round trip evaluated with a concrete serialization
collaborator, a concrete starting map, environment and base URL, and the
empty store. -/
theorem envStore_roundtrip_witness :
    toyUrlCodec.decode (toyUrlCodec.encode
        (SavedUrls.set { development := "a", production := "" }
          Env.development "http://localhost:3000")) =
      some (SavedUrls.set { development := "a", production := "" }
        Env.development "http://localhost:3000") ∧
    (saveBaseUrl toyUrlCodec { development := "a", production := "" }
        Env.development "http://localhost:3000" (fun _ => none)).1 =
      SavedUrls.set { development := "a", production := "" }
        Env.development "http://localhost:3000" ∧
    loadSavedUrls toyUrlCodec
        (saveBaseUrl toyUrlCodec { development := "a", production := "" }
          Env.development "http://localhost:3000" (fun _ => none)).2 =
      some ((saveBaseUrl toyUrlCodec { development := "a", production := "" }
        Env.development "http://localhost:3000" (fun _ => none)).1) := by
  have h := envStore_roundtrip toyUrlCodec (fun _ => none)
    { development := "a", production := "" } Env.development
    "http://localhost:3000" rfl
  exact ⟨rfl, h.1, h.2⟩
